import Mathlib

/-!
Verification of the SuperMango backend core logic: the weather-risk
classifier and advisory lookup (`services/rule_service.py`) and the batch
severity aggregation route (`routes/core.py`).

Numbers are embedded as exact rationals; Python `round` (banker's
rounding) is `pyRound`; Python list indexing (including negative indices
and `IndexError`) is `pyIndex`; Python exceptions are `Except.error`
carrying the exception name.
-/

deriving instance DecidableEq for Except

namespace SuperMango

/-- Python built-in `round` to an integer: round half to even. -/
def pyRound (q : ℚ) : ℤ :=
  if q - ⌊q⌋ < 1/2 then ⌊q⌋
  else if 1/2 < q - ⌊q⌋ then ⌊q⌋ + 1
  else if ⌊q⌋ % 2 = 0 then ⌊q⌋ else ⌊q⌋ + 1

/-- Python `round(x, 2)`: round half to even at two decimal places. -/
def round2 (q : ℚ) : ℚ := (pyRound (q * 100) : ℚ) / 100

/-- `CLASS_LABELS` from both `rule_service.py` and `core.py`. -/
def CLASS_LABELS : List String := ["Healthy", "Mild", "Moderate", "Severe"]

/-- `NUM_CLASSES` from `core.py`. -/
def NUM_CLASSES : Nat := 4

/-- `MAX_SEVERITY_SCORE = NUM_CLASSES - 1` from `core.py`. -/
def MAX_SEVERITY_SCORE : Nat := NUM_CLASSES - 1

/-- Python list indexing `l[i]` with an `int` index: negative indices
count from the end; out of range raises `IndexError`. -/
def pyIndex (l : List String) (i : ℤ) : Except String String :=
  let j : ℤ := if i < 0 then i + l.length else i
  if 0 ≤ j ∧ j < l.length then Except.ok (l.getD j.toNat "")
  else Except.error "IndexError"

/-- `_weather_risk(temp, rh, wet)` from `rule_service.py`. -/
def weather_risk (temp rh wet : ℚ) : String :=
  if (25 ≤ temp ∧ temp ≤ 30 ∧ 95 ≤ rh ∧ 12 ≤ wet) ∨
     (22 ≤ temp ∧ temp ≤ 30 ∧ 95 ≤ rh ∧ 6 ≤ wet) then "High"
  else if temp < 22 ∨ rh < 85 ∨ wet < 6 then "Low"
  else "Medium"

/-- `_RULE_MATRIX` from `rule_service.py`, as a lookup on (label, tier). -/
def RULE_MATRIX : String × String → Option String
  | ("Healthy", "Low") => some "1. Inspect a few trees every 5 days for new spots.\n2. Prune crossing shoots so air flows freely.\n3. Keep fertiliser balanced; avoid excess nitrogen."
  | ("Mild", "Low") => some "1. Pluck leaves with lesions and discard them far from the block.\n2. Disinfect pruning tools between trees.\n3. Give one coat of *non-systemic* copper or mancozeb (2 g L⁻¹).\n4. Save systemic fungicides for later if pressure stays low."
  | ("Moderate", "Low") => some "1. Spot-spray copper oxychloride 2 g L⁻¹ on clusters with lesions.\n2. Prune twigs with > 30 % infected leaves.\n3. Re-check in 3 days; if spots expand, move up to a systemic.\n4. Rotate fungicide group on the next spray."
  | ("Severe", "Low") => some "1. Remove heavily infected branches and *burn* them off-site.\n2. Spray azoxystrobin 0.2 mL L⁻¹ + mancozeb 2 g L⁻¹ over the canopy.\n3. Flag these trees for weekly follow-up.\n4. Seal big cuts with wound paint to block reinfection."
  | ("Healthy", "Medium") => some "1. Blanket-spray copper hydroxide 2 g L⁻¹.\n2. Thin the crowded interior so leaves dry faster.\n3. Book a second copper round in 12 days."
  | ("Mild", "Medium") => some "1. Collect and remove infected foliage.\n2. Spray chlorothalonil 3 g L⁻¹ today.\n3. Follow with azoxystrobin 0.2 mL L⁻¹ after 7 days.\n4. **Rotate** to a different fungicide class next spray."
  | ("Moderate", "Medium") => some "1. Mix tebuconazole 0.2 mL L⁻¹ + mancozeb 2 g L⁻¹; spray to runoff.\n2. Prune and burn infected twigs.\n3. Repeat systemic in 7–10 days if lesions stay active.\n4. Switch fungicide class at the next application."
  | ("Severe", "Medium") => some "1. Lop off fruiting twigs with lesions; burn them.\n2. Spray propiconazole 0.25 mL L⁻¹ + mancozeb 2 g L⁻¹.\n3. Re-inspect in 5 days; keep rotating systemics until new growth is clean.\n4. Seal pruning wounds to stop fresh spores entering."
  | ("Healthy", "High") => some "1. Within 24 h spray copper oxychloride 2 g L⁻¹.\n2. Keep a 7-day copper schedule until weather calms.\n3. Improve drainage and avoid overhead irrigation."
  | ("Mild", "High") => some "1. Within 24 h spray azoxystrobin 0.2 mL L⁻¹ + mancozeb 2 g L⁻¹.\n2. Remove reachable infected leaves only if canopy loss < 10 %.\n3. Check lesions every 3 days; keep a 7-day spray interval.\n4. Rotate fungicide class each cycle."
  | ("Moderate", "High") => some "1. Prune branches with heavy spotting before spraying.\n2. Within 24 h tank-mix azoxystrobin 0.2 mL L⁻¹ + tebuconazole 0.25 mL L⁻¹ + mancozeb 2 g L⁻¹.\n3. Spray every 5–7 days until wetness hours drop below 6 h.\n4. Rotate fungicide class every round."
  | ("Severe", "High") => some "1. Quarantine the block—essential staff only.\n2. Destroy the worst 30 % of foliage and burn it down-wind.\n3. Start a 3-spray rotation: day 0 difenoconazole 0.3 mL L⁻¹ + chlorothalonil 3 g L⁻¹;\n   day 5 propiconazole + mancozeb; day 10 repeat day 0 mix.\n4. Seal all pruning cuts with wound paint.\n5. Keep rotating fungicides every 5 days."
  | _ => none

/-- `_INFO_MATRIX` from `rule_service.py`, as a lookup on (label, tier). -/
def INFO_MATRIX : String × String → Option String
  | ("Healthy", "Low") => some "Cool, dry weather slows spores—watchful waiting is enough."
  | ("Mild", "Low") => some "Early lesion removal cuts the spore load; non-systemic copper is gentle on soil life."
  | ("Moderate", "Low") => some "Copper shields the surface; pruning lowers inoculum; rotation avoids resistance."
  | ("Severe", "Low") => some "Systemic + protectant reaches hidden infections; wound paint blocks new entry points."
  | ("Healthy", "Medium") => some "Weather is turning friendly to the fungus; copper barrier stops spores from germinating."
  | ("Mild", "Medium") => some "Protectant cleans the leaf, systemic cures hidden spots; alternating classes prevents immunity."
  | ("Moderate", "Medium") => some "Mixed modes of action tackle established lesions; FRAC rotation keeps chemistry effective."
  | ("Severe", "Medium") => some "Heavy sanitation plus wound care remove reservoirs while rotating fungicides holds the line."
  | ("Healthy", "High") => some "Prolonged wet, humid spells are perfect for infection—continuous copper barrier is vital."
  | ("Mild", "High") => some "Curative systemic freezes the fungus; protectant stops new spread; strict rotation fights resistance."
  | ("Moderate", "High") => some "Rapid spread needs multiple actives and short intervals; rotation + sanitation contain the 24-h threat."
  | ("Severe", "High") => some "When canopy infection meets perfect weather, only combined chemical, sanitation, and wound-sealing can salvage any yield."
  | _ => none

/-- The dict returned by `get_recommendation`. -/
structure Recommendation where
  severity_label : String
  weather_risk : String
  advice : String
  info : String
deriving Repr, DecidableEq

/-- The pair of lookup tables read by `get_recommendation` (module-level
dict state in `rule_service.py`). -/
abbrev Tables := (String × String → Option String) × (String × String → Option String)

/-- Body of `get_recommendation` parameterised by the two tables it
reads.  A failing label index is Python `IndexError`; a missing table
entry is Python `KeyError`. -/
def get_recommendation_core (ruleM infoM : String × String → Option String)
    (severity_idx : ℤ) (humidity temperature wetness : ℚ) :
    Except String Recommendation :=
  match pyIndex CLASS_LABELS severity_idx with
  | Except.error e => Except.error e
  | Except.ok severity_label =>
    let risk_label := weather_risk temperature humidity wetness
    match ruleM (severity_label, risk_label), infoM (severity_label, risk_label) with
    | some advice, some info =>
        Except.ok ⟨severity_label, risk_label, advice, info⟩
    | _, _ => Except.error "KeyError"

/-- `get_recommendation(severity_idx, humidity, temperature, wetness)`
from `rule_service.py`. -/
def get_recommendation (severity_idx : ℤ) (humidity temperature wetness : ℚ) :
    Except String Recommendation :=
  get_recommendation_core RULE_MATRIX INFO_MATRIX severity_idx humidity temperature wetness

/-- `get_recommendation` with the module-level table state made
explicit: the call reads the tables and passes them through. -/
def get_recommendation_st (tabs : Tables) (severity_idx : ℤ)
    (humidity temperature wetness : ℚ) :
    Except String Recommendation × Tables :=
  (get_recommendation_core tabs.1 tabs.2 severity_idx humidity temperature wetness, tabs)

/-- The `weather` object of the response of `getPrescription`. -/
structure Weather where
  humidity : ℚ
  temperature : ℚ
  wetness : ℚ
  lat : ℚ
  lon : ℚ
deriving Repr, DecidableEq

/-- The JSON response of `getPrescription`. -/
structure ApiResponse where
  percent_severity_index : ℚ
  overall_label : String
  overall_severity_index : ℤ
  weather : Weather
  recommendation : Recommendation
deriving Repr, DecidableEq

/-- The `getPrescription` route from `routes/core.py`, with the image
classifier abstracted: `classes` is the list of per-image severity
classes the ResNet produces (one per uploaded file, in order).  Python
division by zero on an empty batch is `ZeroDivisionError`. -/
def getPrescription (classes : List Nat)
    (humidity temperature wetness lat lon : ℚ) : Except String ApiResponse :=
  let severity_sum : Nat := classes.sum
  if classes.length = 0 then Except.error "ZeroDivisionError"
  else
    let psi : ℚ :=
      round2 ((severity_sum : ℚ) / ((MAX_SEVERITY_SCORE : ℚ) * classes.length) * 100)
    let overall_idx : ℤ := pyRound ((severity_sum : ℚ) / classes.length)
    match pyIndex CLASS_LABELS overall_idx with
    | Except.error e => Except.error e
    | Except.ok overall_label =>
      match get_recommendation overall_idx humidity temperature wetness with
      | Except.error e => Except.error e
      | Except.ok recommendation =>
        Except.ok
          { percent_severity_index := psi
            overall_label := overall_label
            overall_severity_index := overall_idx
            weather := ⟨humidity, temperature, wetness, lat, lon⟩
            recommendation := recommendation }

/-- Everything in the response except `weather.lat` and `weather.lon`. -/
def nonGeoView (r : ApiResponse) :
    ℚ × String × ℤ × ℚ × ℚ × ℚ × Recommendation :=
  (r.percent_severity_index, r.overall_label, r.overall_severity_index,
   r.weather.humidity, r.weather.temperature, r.weather.wetness, r.recommendation)

section Lemmas

/-- `pyRound` never goes below the floor. -/
lemma floor_le_pyRound (q : ℚ) : ⌊q⌋ ≤ pyRound q := by
  unfold pyRound
  split_ifs <;> omega

/-- `pyRound` of a nonnegative rational is nonnegative. -/
lemma pyRound_nonneg {q : ℚ} (h : 0 ≤ q) : 0 ≤ pyRound q := by
  have hf : 0 ≤ ⌊q⌋ := Int.floor_nonneg.2 h
  unfold pyRound
  split_ifs <;> omega

/-- `pyRound` of a rational bounded by an integer is bounded by it. -/
lemma pyRound_le {q : ℚ} {n : ℤ} (h : q ≤ n) : pyRound q ≤ n := by
  have hf : ⌊q⌋ ≤ n := by
    have h1 := Int.floor_le_floor h
    simpa using h1
  have key : ¬(q - ⌊q⌋ < 1/2) → ⌊q⌋ + 1 ≤ n := by
    intro hr
    rcases lt_or_eq_of_le hf with hlt | heq
    · omega
    · exfalso
      have hq : q ≤ (⌊q⌋ : ℚ) := by
        rw [heq]; exact_mod_cast h
      have : q - (⌊q⌋ : ℚ) < 1/2 := by linarith
      exact hr this
  unfold pyRound
  split_ifs with h1 h2 h3
  · exact hf
  · exact key h1
  · exact hf
  · exact key h1

/-- `weather_risk` only ever returns one of the three tier strings. -/
lemma weather_risk_mem (t h w : ℚ) :
    weather_risk t h w ∈ ["High", "Low", "Medium"] := by
  unfold weather_risk
  split_ifs <;> simp

/-- In-range indices into `CLASS_LABELS` resolve without `IndexError`. -/
lemma pyIndex_CLASS_LABELS {i : ℤ} (h0 : 0 ≤ i) (h3 : i ≤ 3) :
    pyIndex CLASS_LABELS i = Except.ok (CLASS_LABELS.getD i.toNat "") := by
  interval_cases i <;> rfl

/-- Indices outside [-4, 3] raise `IndexError` on `CLASS_LABELS`. -/
lemma pyIndex_CLASS_LABELS_out {i : ℤ} (hi : i < -4 ∨ 3 < i) :
    pyIndex CLASS_LABELS i = Except.error "IndexError" := by
  have hlen : CLASS_LABELS.length = 4 := rfl
  simp only [pyIndex, hlen]
  by_cases hneg : i < 0
  · rw [if_pos hneg, if_neg (by omega)]
  · rw [if_neg hneg, if_neg (by omega)]

/-- Every (label, tier) pair from the enumerated domains has a populated,
non-empty entry in both matrices. -/
lemma matrices_complete :
    ∀ lbl ∈ CLASS_LABELS, ∀ tier ∈ ["High", "Low", "Medium"],
      (RULE_MATRIX (lbl, tier)).isSome = true ∧
      (RULE_MATRIX (lbl, tier)).getD "" ≠ "" ∧
      (INFO_MATRIX (lbl, tier)).isSome = true ∧
      (INFO_MATRIX (lbl, tier)).getD "" ≠ "" := by
  decide

/-- `round2` of a nonnegative rational is nonnegative. -/
lemma round2_nonneg {x : ℚ} (h : 0 ≤ x) : 0 ≤ round2 x := by
  have h1 : 0 ≤ pyRound (x * 100) := pyRound_nonneg (by positivity)
  unfold round2
  have h2 : (0:ℚ) ≤ (pyRound (x * 100) : ℚ) := by exact_mod_cast h1
  positivity

/-- `round2` of a rational at most 100 is at most 100. -/
lemma round2_le_100 {x : ℚ} (h : x ≤ 100) : round2 x ≤ 100 := by
  have h1 : x * 100 ≤ ((10000 : ℤ) : ℚ) := by push_cast; linarith
  have h2 : pyRound (x * 100) ≤ 10000 := pyRound_le h1
  unfold round2
  rw [div_le_iff₀ (by norm_num : (0:ℚ) < 100)]
  have h3 : (pyRound (x * 100) : ℚ) ≤ 10000 := by exact_mod_cast h2
  linarith

/-- For a severity index in [0,3], `get_recommendation` succeeds with a
fully-populated recommendation built from the two matrices. -/
lemma get_recommendation_ok {i : ℤ} (h0 : 0 ≤ i) (h3 : i ≤ 3) (hu t w : ℚ) :
    ∃ r, get_recommendation i hu t w = Except.ok r ∧
      r.severity_label = CLASS_LABELS.getD i.toNat "" ∧
      r.weather_risk = weather_risk t hu w ∧
      r.advice ≠ "" ∧ r.info ≠ "" := by
  have hmem : CLASS_LABELS.getD i.toNat "" ∈ CLASS_LABELS := by
    interval_cases i <;> decide
  obtain ⟨hr1, hr2, hi1, hi2⟩ :=
    matrices_complete _ hmem _ (weather_risk_mem t hu w)
  obtain ⟨adv, hadv⟩ := Option.isSome_iff_exists.1 hr1
  obtain ⟨inf, hinf⟩ := Option.isSome_iff_exists.1 hi1
  refine ⟨⟨CLASS_LABELS.getD i.toNat "", weather_risk t hu w, adv, inf⟩,
    ?_, rfl, rfl, ?_, ?_⟩
  · unfold get_recommendation get_recommendation_core
    rw [pyIndex_CLASS_LABELS h0 h3]
    simp only [hadv, hinf]
  · rw [hadv] at hr2
    simpa using hr2
  · rw [hinf] at hi2
    simpa using hi2

/-- Master lemma: on a non-empty batch of in-range classes the route
succeeds, and every field of the response is as computed in `core.py`. -/
lemma getPrescription_ok (classes : List Nat) (hu t w lat lon : ℚ)
    (hne : classes ≠ []) (hcls : ∀ c ∈ classes, c ≤ 3) :
    ∃ resp, getPrescription classes hu t w lat lon = Except.ok resp ∧
      resp.percent_severity_index =
        round2 ((classes.sum : ℚ) / ((MAX_SEVERITY_SCORE : ℚ) * classes.length) * 100) ∧
      resp.overall_severity_index = pyRound ((classes.sum : ℚ) / classes.length) ∧
      0 ≤ resp.overall_severity_index ∧ resp.overall_severity_index ≤ 3 ∧
      resp.overall_label = CLASS_LABELS.getD resp.overall_severity_index.toNat "" ∧
      resp.weather = ⟨hu, t, w, lat, lon⟩ ∧
      resp.recommendation.severity_label = resp.overall_label ∧
      resp.recommendation.weather_risk = weather_risk t hu w ∧
      resp.recommendation.advice ≠ "" ∧ resp.recommendation.info ≠ "" := by
  have hlen0 : classes.length ≠ 0 := by simpa using hne
  have hlenpos : (0:ℚ) < classes.length := by
    exact_mod_cast Nat.pos_of_ne_zero hlen0
  have hsum : classes.sum ≤ 3 * classes.length := by
    have h := List.sum_le_card_nsmul classes 3 hcls
    simpa [smul_eq_mul, mul_comm] using h
  have hm0 : 0 ≤ (classes.sum : ℚ) / classes.length :=
    div_nonneg (by positivity) (le_of_lt hlenpos)
  have hm3 : (classes.sum : ℚ) / classes.length ≤ 3 := by
    rw [div_le_iff₀ hlenpos]
    exact_mod_cast hsum
  have h0 : 0 ≤ pyRound ((classes.sum : ℚ) / classes.length) := pyRound_nonneg hm0
  have h3 : pyRound ((classes.sum : ℚ) / classes.length) ≤ 3 :=
    pyRound_le (by exact_mod_cast hm3)
  obtain ⟨r, hr, hrl, hrw, hra, hri⟩ := get_recommendation_ok h0 h3 hu t w
  refine ⟨⟨round2 ((classes.sum : ℚ) / ((MAX_SEVERITY_SCORE : ℚ) * classes.length) * 100),
      CLASS_LABELS.getD (pyRound ((classes.sum : ℚ) / classes.length)).toNat "",
      pyRound ((classes.sum : ℚ) / classes.length),
      ⟨hu, t, w, lat, lon⟩, r⟩,
    ?_, rfl, rfl, h0, h3, rfl, rfl, hrl, hrw, hra, hri⟩
  simp only [getPrescription]
  rw [if_neg hlen0, pyIndex_CLASS_LABELS h0 h3, hr]

end Lemmas

section Claims

/-- C1: the weather-risk classifier returns "High" exactly on the union of
the classic and rain-then-sun rules, "Low" exactly when (and only when,
given High failed) temperature, humidity or wetness is below threshold,
and "Medium" otherwise; the four pinned examples evaluate as stated, with
the High rule checked before the Low rule. -/
theorem weather_risk_spec :
    (∀ t h w : ℚ,
      (weather_risk t h w = "High" ↔
        (25 ≤ t ∧ t ≤ 30 ∧ 95 ≤ h ∧ 12 ≤ w) ∨
        (22 ≤ t ∧ t ≤ 30 ∧ 95 ≤ h ∧ 6 ≤ w)) ∧
      (weather_risk t h w = "Low" ↔
        (¬((25 ≤ t ∧ t ≤ 30 ∧ 95 ≤ h ∧ 12 ≤ w) ∨
           (22 ≤ t ∧ t ≤ 30 ∧ 95 ≤ h ∧ 6 ≤ w)) ∧
         (t < 22 ∨ h < 85 ∨ w < 6))) ∧
      (weather_risk t h w = "Medium" ↔
        (¬((25 ≤ t ∧ t ≤ 30 ∧ 95 ≤ h ∧ 12 ≤ w) ∨
           (22 ≤ t ∧ t ≤ 30 ∧ 95 ≤ h ∧ 6 ≤ w)) ∧
         ¬(t < 22 ∨ h < 85 ∨ w < 6)))) ∧
    weather_risk 27 96 13 = "High" ∧
    weather_risk 23 96 7 = "High" ∧
    weather_risk 18 99 20 = "Low" ∧
    weather_risk 24 90 8 = "Medium" := by
  have eHL : ("High" : String) ≠ "Low" := by decide
  have eHM : ("High" : String) ≠ "Medium" := by decide
  have eLH : ("Low" : String) ≠ "High" := by decide
  have eLM : ("Low" : String) ≠ "Medium" := by decide
  have eMH : ("Medium" : String) ≠ "High" := by decide
  have eML : ("Medium" : String) ≠ "Low" := by decide
  refine ⟨?_, by decide, by decide, by decide, by decide⟩
  intro t h w
  unfold weather_risk
  split_ifs with h1 h2
  · exact ⟨by simp [h1], by simp [eHL, h1], by simp [eHM, h1]⟩
  · exact ⟨by simp [eLH, h1], by simp [h1, h2], by simp [eLM, h1, h2]⟩
  · exact ⟨by simp [eMH, h1], by simp [eML, h1, h2], by simp [h1, h2]⟩

/-- C2 evaluation: on an empty batch the route hits the division by
`MAX_SEVERITY_SCORE * len(predictions) = 0` and the request dies with
`ZeroDivisionError`, not `InvalidInputError`. -/
theorem getPrescription_empty_batch :
    ∀ hu t w lat lon : ℚ,
      getPrescription [] hu t w lat lon = Except.error "ZeroDivisionError" := by
  intro hu t w lat lon
  rfl

/-- C9: `get_recommendation` with its module-level table state made
explicit returns the tables unchanged, two successive calls with the same
arguments agree, and the stateful run coincides with the plain function. -/
theorem get_recommendation_pure :
    ∀ (tabs : Tables) (i : ℤ) (hu t w : ℚ),
      (get_recommendation_st tabs i hu t w).2 = tabs ∧
      (get_recommendation_st tabs i hu t w).1 =
        (get_recommendation_st (get_recommendation_st tabs i hu t w).2 i hu t w).1 ∧
      (get_recommendation_st (RULE_MATRIX, INFO_MATRIX) i hu t w).1 =
        get_recommendation i hu t w := by
  intro tabs i hu t w
  exact ⟨rfl, rfl, rfl⟩

/-- C6 counterexample: `severity_idx = -1` is outside [0,3], yet the call
does not fail at all — Python negative indexing maps it to "Severe" and a
full recommendation is returned. -/
theorem get_recommendation_neg_idx_ok :
    (get_recommendation (-1) 90 25 8).map Recommendation.severity_label =
      Except.ok "Severe" := by
  decide

/-- C6 amended: an index outside [-4, 3] makes the label lookup fail with
Python `IndexError` (there is no `ConfigurationError` anywhere); indices
in [-4, -1] are accepted via negative indexing. -/
theorem get_recommendation_out_of_range :
    ∀ (i : ℤ) (hu t w : ℚ), i < -4 ∨ 3 < i →
      get_recommendation i hu t w = Except.error "IndexError" := by
  intro i hu t w hi
  unfold get_recommendation get_recommendation_core
  rw [pyIndex_CLASS_LABELS_out hi]

/-- C6 amended, witness: `severity_idx = 5` raises `IndexError`. -/
theorem get_recommendation_out_of_range_witness :
    get_recommendation 5 90 25 8 = Except.error "IndexError" :=
  get_recommendation_out_of_range 5 90 25 8 (Or.inr (by decide))

/-- C3: for every non-empty batch of classes in [0,3] the percent
severity index is `round(sum / (3·N) · 100, 2)` and lies in [0,100]; the
four single-image batches give 0.0, 33.33, 66.67 and 100.0. -/
theorem percent_severity_index_spec :
    (∀ (classes : List Nat) (hu t w lat lon : ℚ),
      classes ≠ [] → (∀ c ∈ classes, c ≤ 3) →
      ∃ resp, getPrescription classes hu t w lat lon = Except.ok resp ∧
        resp.percent_severity_index =
          round2 ((classes.sum : ℚ) / ((MAX_SEVERITY_SCORE : ℚ) * classes.length) * 100) ∧
        0 ≤ resp.percent_severity_index ∧ resp.percent_severity_index ≤ 100) ∧
    (getPrescription [0] 90 24 8 0 0).map (·.percent_severity_index) = Except.ok 0 ∧
    (getPrescription [1] 90 24 8 0 0).map (·.percent_severity_index) = Except.ok 33.33 ∧
    (getPrescription [2] 90 24 8 0 0).map (·.percent_severity_index) = Except.ok 66.67 ∧
    (getPrescription [3] 90 24 8 0 0).map (·.percent_severity_index) = Except.ok 100 := by
  constructor
  · intro classes hu t w lat lon hne hcls
    obtain ⟨resp, hok, hpsi, _, _, _, _, _, _, _, _⟩ :=
      getPrescription_ok classes hu t w lat lon hne hcls
    have hlenpos : (0:ℚ) < classes.length := by
      exact_mod_cast Nat.pos_of_ne_zero (by simpa using hne)
    have hsum : classes.sum ≤ 3 * classes.length := by
      have h := List.sum_le_card_nsmul classes 3 hcls
      simpa [smul_eq_mul, mul_comm] using h
    have hms : (MAX_SEVERITY_SCORE : ℚ) = 3 := by
      norm_num [MAX_SEVERITY_SCORE, NUM_CLASSES]
    have harg0 : 0 ≤ (classes.sum : ℚ) / ((MAX_SEVERITY_SCORE : ℚ) * classes.length) * 100 := by
      rw [hms]; positivity
    have harg1 : (classes.sum : ℚ) / ((MAX_SEVERITY_SCORE : ℚ) * classes.length) * 100 ≤ 100 := by
      rw [hms]
      have hd : (classes.sum : ℚ) / (3 * classes.length) ≤ 1 := by
        rw [div_le_one (by positivity)]
        exact_mod_cast hsum
      nlinarith
    exact ⟨resp, hok, hpsi, hpsi ▸ round2_nonneg harg0, hpsi ▸ round2_le_100 harg1⟩
  refine ⟨?_, ?_, ?_, ?_⟩
  · obtain ⟨resp, hok, hpsi, _, _, _, _, _, _, _, _⟩ :=
      getPrescription_ok [0] 90 24 8 0 0 (by decide) (by decide)
    rw [hok]
    simp only [Except.map]
    rw [hpsi]
    norm_num [round2, pyRound, MAX_SEVERITY_SCORE, NUM_CLASSES]
  · obtain ⟨resp, hok, hpsi, _, _, _, _, _, _, _, _⟩ :=
      getPrescription_ok [1] 90 24 8 0 0 (by decide) (by decide)
    rw [hok]
    simp only [Except.map]
    rw [hpsi]
    norm_num [round2, pyRound, MAX_SEVERITY_SCORE, NUM_CLASSES]
  · obtain ⟨resp, hok, hpsi, _, _, _, _, _, _, _, _⟩ :=
      getPrescription_ok [2] 90 24 8 0 0 (by decide) (by decide)
    rw [hok]
    simp only [Except.map]
    rw [hpsi]
    norm_num [round2, pyRound, MAX_SEVERITY_SCORE, NUM_CLASSES]
  · obtain ⟨resp, hok, hpsi, _, _, _, _, _, _, _, _⟩ :=
      getPrescription_ok [3] 90 24 8 0 0 (by decide) (by decide)
    rw [hok]
    simp only [Except.map]
    rw [hpsi]
    norm_num [round2, pyRound, MAX_SEVERITY_SCORE, NUM_CLASSES]

/-- C3 witness: a concrete two-image batch satisfies the hypotheses and
the bounds. -/
theorem percent_severity_index_spec_witness :
    ∃ resp, getPrescription [1, 2] 90 24 8 0 0 = Except.ok resp ∧
      resp.percent_severity_index =
        round2 ((([1, 2] : List Nat).sum : ℚ) /
          ((MAX_SEVERITY_SCORE : ℚ) * ([1, 2] : List Nat).length) * 100) ∧
      0 ≤ resp.percent_severity_index ∧ resp.percent_severity_index ≤ 100 :=
  percent_severity_index_spec.1 [1, 2] 90 24 8 0 0 (by decide) (by decide)

/-- C4: the overall severity index is the banker's rounding of the mean
class, always lands in [0,3] so labelling cannot fail, and the overall
label is the list entry at that index; the batch [0,3,0] yields index 1
and label "Mild". -/
theorem overall_severity_index_spec :
    (∀ (classes : List Nat) (hu t w lat lon : ℚ),
      classes ≠ [] → (∀ c ∈ classes, c ≤ 3) →
      ∃ resp, getPrescription classes hu t w lat lon = Except.ok resp ∧
        resp.overall_severity_index = pyRound ((classes.sum : ℚ) / classes.length) ∧
        0 ≤ resp.overall_severity_index ∧ resp.overall_severity_index ≤ 3 ∧
        resp.overall_label = CLASS_LABELS.getD resp.overall_severity_index.toNat "") ∧
    (getPrescription [0, 3, 0] 90 24 8 0 0).map
      (fun r => (r.overall_severity_index, r.overall_label)) = Except.ok (1, "Mild") := by
  constructor
  · intro classes hu t w lat lon hne hcls
    obtain ⟨resp, hok, _, hoi, h0, h3, hlbl, _, _, _, _⟩ :=
      getPrescription_ok classes hu t w lat lon hne hcls
    exact ⟨resp, hok, hoi, h0, h3, hlbl⟩
  obtain ⟨resp, hok, _, hoi, _, _, hlbl, _, _, _, _, _⟩ :=
    getPrescription_ok [0, 3, 0] 90 24 8 0 0 (by decide) (by decide)
  rw [hok]
  simp only [Except.map]
  have h1 : resp.overall_severity_index = 1 := by
    rw [hoi]; norm_num [pyRound]
  have h2 : resp.overall_label = "Mild" := by
    rw [hlbl, h1]; rfl
  simp [h1, h2]

/-- C4 witness: the concrete batch [0,3,0] satisfies the hypotheses and
its overall index is in range. -/
theorem overall_severity_index_spec_witness :
    ∃ resp, getPrescription [0, 3, 0] 90 24 8 0 0 = Except.ok resp ∧
      resp.overall_severity_index =
        pyRound ((([0, 3, 0] : List Nat).sum : ℚ) / ([0, 3, 0] : List Nat).length) ∧
      0 ≤ resp.overall_severity_index ∧ resp.overall_severity_index ≤ 3 ∧
      resp.overall_label = CLASS_LABELS.getD resp.overall_severity_index.toNat "" :=
  overall_severity_index_spec.1 [0, 3, 0] 90 24 8 0 0 (by decide) (by decide)

/-- C5: every (label, tier) pair of the 4×3 enumerated domains is
populated with non-empty advice and info, and `get_recommendation`
succeeds with non-empty texts for every severity index in [0,3] and any
weather input. -/
theorem recommendation_lookup_complete :
    (∀ (i : ℤ), 0 ≤ i → i ≤ 3 → ∀ (hu t w : ℚ),
      ∃ r, get_recommendation i hu t w = Except.ok r ∧
        r.advice ≠ "" ∧ r.info ≠ "") ∧
    (∀ lbl ∈ CLASS_LABELS, ∀ tier ∈ ["Low", "Medium", "High"],
      (RULE_MATRIX (lbl, tier)).isSome = true ∧
      (RULE_MATRIX (lbl, tier)).getD "" ≠ "" ∧
      (INFO_MATRIX (lbl, tier)).isSome = true ∧
      (INFO_MATRIX (lbl, tier)).getD "" ≠ "") := by
  constructor
  · intro i h0 h3 hu t w
    obtain ⟨r, hok, _, _, ha, hi⟩ := get_recommendation_ok h0 h3 hu t w
    exact ⟨r, hok, ha, hi⟩
  · decide

/-- C5 witness: the Severe row under concrete High-risk weather. -/
theorem recommendation_lookup_complete_witness :
    ∃ r, get_recommendation 3 96 27 13 = Except.ok r ∧
      r.advice ≠ "" ∧ r.info ≠ "" :=
  recommendation_lookup_complete.1 3 (by decide) (by decide) 96 27 13

/-- C7 counterexample: a request with humidity = -5 (out of domain) is
not rejected: the route succeeds, feeds -5 to the risk classifier (which
returns "Low") and echoes -5 in the response. -/
theorem negative_humidity_accepted :
    (getPrescription [2] (-5) 27 13 14 121).map
      (fun r => (r.weather.humidity, r.recommendation.weather_risk)) =
      Except.ok (-5, "Low") := by
  obtain ⟨resp, hok, _, _, _, _, _, hw, _, hrw, _, _⟩ :=
    getPrescription_ok [2] (-5) 27 13 14 121 (by decide) (by decide)
  rw [hok]
  simp only [Except.map]
  have h1 : resp.weather.humidity = -5 := by rw [hw]
  have h2 : resp.recommendation.weather_risk = "Low" := by
    rw [hrw]; norm_num [weather_risk]
  simp [h1, h2]

/-- C7 amended: the route performs no domain validation on the numeric
fields — for every humidity, temperature and wetness (in-domain or not)
a valid batch produces a normal response that uses and echoes the values
as given. -/
theorem no_numeric_validation :
    ∀ (classes : List Nat) (hu t w lat lon : ℚ),
      classes ≠ [] → (∀ c ∈ classes, c ≤ 3) →
      ∃ resp, getPrescription classes hu t w lat lon = Except.ok resp ∧
        resp.weather.humidity = hu ∧
        resp.recommendation.weather_risk = weather_risk t hu w := by
  intro classes hu t w lat lon hne hcls
  obtain ⟨resp, hok, _, _, _, _, _, hw, _, hrw, _, _⟩ :=
    getPrescription_ok classes hu t w lat lon hne hcls
  exact ⟨resp, hok, by rw [hw], hrw⟩

/-- C7 amended, witness: humidity -5 flows through unvalidated. -/
theorem no_numeric_validation_witness :
    ∃ resp, getPrescription [2] (-5) 27 13 14 121 = Except.ok resp ∧
      resp.weather.humidity = -5 ∧
      resp.recommendation.weather_risk = weather_risk 27 (-5) 13 :=
  no_numeric_validation [2] (-5) 27 13 14 121 (by decide) (by decide)

/-- C8: the weather object echoes the five input scalars unchanged, and
lat/lon influence nothing else: changing only lat/lon leaves every other
response field (and any error) identical. -/
theorem latlon_noninterference :
    ∀ (classes : List Nat) (hu t w lat lon lat' lon' : ℚ),
      (getPrescription classes hu t w lat lon).map nonGeoView =
        (getPrescription classes hu t w lat' lon').map nonGeoView ∧
      (getPrescription classes hu t w lat lon).map ApiResponse.weather =
        (getPrescription classes hu t w lat lon).map
          (fun _ => (⟨hu, t, w, lat, lon⟩ : Weather)) := by
  intro classes hu t w lat lon lat' lon'
  constructor <;>
  · simp only [getPrescription]
    by_cases hl : classes.length = 0
    · simp only [if_pos hl]
      try rfl
    · simp only [if_neg hl]
      rcases hpi : pyIndex CLASS_LABELS
          (pyRound ((classes.sum : ℚ) / classes.length)) with e | lbl <;>
        rcases hrec : get_recommendation
            (pyRound ((classes.sum : ℚ) / classes.length)) hu t w with e2 | _r <;>
          simp [hpi, hrec, nonGeoView, Except.map]

/-- C10: `round` resolves mean ties half-to-even: the batch [0,1]
(mean 0.5) rounds down to overall index 0 while [1,2] (mean 1.5) rounds
up to 2. -/
theorem overall_index_ties_half_even :
    pyRound (1/2 : ℚ) = 0 ∧ pyRound (3/2 : ℚ) = 2 ∧
    (getPrescription [0, 1] 90 24 8 0 0).map (·.overall_severity_index) =
      Except.ok 0 ∧
    (getPrescription [1, 2] 90 24 8 0 0).map (·.overall_severity_index) =
      Except.ok 2 := by
  refine ⟨by norm_num [pyRound], by norm_num [pyRound], ?_, ?_⟩
  · obtain ⟨resp, hok, _, hoi, _, _, _, _, _, _, _, _⟩ :=
      getPrescription_ok [0, 1] 90 24 8 0 0 (by decide) (by decide)
    rw [hok]
    simp only [Except.map]
    rw [hoi]
    norm_num [pyRound]
  · obtain ⟨resp, hok, _, hoi, _, _, _, _, _, _, _, _⟩ :=
      getPrescription_ok [1, 2] 90 24 8 0 0 (by decide) (by decide)
    rw [hok]
    simp only [Except.map]
    rw [hoi]
    norm_num [pyRound]

end Claims


end SuperMango
